import Mathlib

/-!
# Verification of the token-lifecycle subsystem of Simple-Django-API

This file is a shallow embedding, in Lean 4, of the token lifecycle code of
the repository:

* `api/utils/result.py` — the `Result` class (`Result.success` / `Result.error`,
  `is_success`, `__bool__`);
* `api/services/redis_service.py` — the `RedisService` methods `store_token`,
  `get_token`, `blacklist_token`, `is_token_blacklisted`, `clear_all_user_data`,
  built on the Django cache (`cache.set` / `cache.get` / `cache.delete` with a
  TTL);
* `api/services/user_service.py` — the `UserService` methods `refresh_token`
  and `logout`.

Modelling conventions:

* JWT token *strings* are modelled by the record `Token` holding the claims the
  code reads (`token_type`, `user_id`, `jti`, `exp`) together with a flag
  `sigOk` meaning the string's signature verifies under the service key.
  Constructing `AccessToken(s)` / `RefreshToken(s)` in `rest_framework_simplejwt`
  verifies the signature, checks `exp` against the current time, and checks the
  `token_type` claim against the class's type (an `AccessToken` built from a
  refresh-token string raises `TokenError: Token has wrong type`); this is
  embedded as `decodeOk`.
* The Django cache is an association list from namespaced keys to values; the
  three key namespaces used by `RedisService` (`jwt_token:<user_id>`,
  `jwt_blacklist:<token>`, `user_sessions:<user_id>`) are the three
  constructors of `CacheKey`, which keeps the namespaces collision-free exactly
  as the distinct string prefixes do.  The TTL passed to `cache.set` is stored
  in the entry so that theorems can inspect it.  Store-connectivity failures
  (the `except` branches of `redis_service.py`) are modelled by the flags
  `setFail` / `getFail` / `delFail`: when set, the corresponding cache
  operation raises, which the Python code converts into a `Result.error`.
* Every store call the code makes is recorded in `trace`, so that theorems can
  state which store operations an API call performs.
* `RefreshToken()` / `refresh.access_token` generate fresh `jti` values; the
  fresh-name supply is the counter `nextJti`, and generated tokens are signed
  (`sigOk := true`).
* `users` is the external user directory (the set of resolvable user ids,
  reachable through `UserRepository`).  None of the embedded operations reads
  it, because the embedded code never queries the repository.
* Error messages are the fixed prefixes of the interpolated Python messages.
-/

set_option autoImplicit false

namespace SimpleDjangoAPI

/-! ## `api/utils/result.py` -/

/-- The `Result` class of `api/utils/result.py`: `data`, `error` and the
`is_success` flag computed by `__init__` as `error is None`. -/
structure Result (T : Type) where
  data : Option T
  error : Option String
  is_success : Bool
deriving DecidableEq

/-- `Result.__init__(data=None, error=None)`: stores both fields and sets
`self.is_success = error is None`. -/
def Result.init {T : Type} (data : Option T) (error : Option String) : Result T :=
  { data := data, error := error, is_success := error.isNone }

/-- `Result.success(data)` = `cls(data)`. -/
def Result.success {T : Type} (d : T) : Result T :=
  Result.init (some d) none

/-- `Result.error(error)` = `cls(error=error)`. -/
def Result.mkError {T : Type} (e : String) : Result T :=
  Result.init none (some e)

/-- `Result.__bool__` = `self.is_success`. -/
def Result.toBool {T : Type} (r : Result T) : Bool :=
  r.is_success

/-! ## Tokens (`rest_framework_simplejwt`) -/

/-- The `token_type` claim: `"access"` or `"refresh"`. -/
inductive TokenType where
  | access
  | refresh
deriving DecidableEq

/-- A JWT string, abstracted to the claims the code reads plus signature
validity.  `user_id` is the `user_id` claim (`none` when absent), `exp` is
epoch seconds. -/
structure Token where
  token_type : TokenType
  user_id : Option String
  jti : Nat
  exp : Int
  sigOk : Bool
deriving DecidableEq

/-- `AccessToken(s)` / `RefreshToken(s)` with verification: signature must
verify, `exp` must lie strictly in the future (`check_exp`), and the
`token_type` claim must match the class (`verify_token_type`). -/
def decodeOk (now : Int) (kind : TokenType) (t : Token) : Bool :=
  t.sigOk && decide (now < t.exp) && decide (t.token_type = kind)

/-- Python truthiness of an optional string claim: `None` and `""` are falsy
(`if not user_id: ...`). -/
def pyFalsy : Option String → Bool
  | none => true
  | some u => u.isEmpty

/-! ## The Django cache -/

/-- The keys `RedisService` writes, one constructor per string-prefix
namespace: `jwt_token:<user_id>`, `jwt_blacklist:<token string>`,
`user_sessions:<user_id>`. -/
inductive CacheKey where
  | tokenKey (user_id : String)
  | blacklistKey (token : Token)
  | sessionKey (user_id : String)
deriving DecidableEq

/-- The `token_data` dict stored under `jwt_token:<user_id>` (the fields the
code later reads back; `refresh_token` is read by `logout`). -/
structure TokenData where
  access_token : Option Token
  refresh_token : Option Token
  user_id : String
deriving DecidableEq

/-- Values stored in the cache: `"blacklisted"` under blacklist keys, a
serialized `token_data` dict under token keys, a session snapshot under
session keys. -/
inductive CacheVal where
  | blacklisted
  | tokenData (d : TokenData)
  | sessionData
deriving DecidableEq

/-- One cache entry: key, value and the TTL (in seconds) passed to
`cache.set`. -/
structure Entry where
  key : CacheKey
  val : CacheVal
  ttl : Int
deriving DecidableEq

/-- A store call, as recorded in the trace. -/
inductive StoreEvent where
  | getEv (k : CacheKey)
  | setEv (k : CacheKey) (ttl : Int)
  | delEv (k : CacheKey)
deriving DecidableEq

/-- `cache.get key` (ignoring passive TTL expiry: all theorems look at a
single instant `now`). -/
def cacheLookup : List Entry → CacheKey → Option CacheVal
  | [], _ => none
  | e :: rest, k => if e.key = k then some e.val else cacheLookup rest k

/-- TTL recorded for a key, for inspection by theorems. -/
def cacheTTL : List Entry → CacheKey → Option Int
  | [], _ => none
  | e :: rest, k => if e.key = k then some e.ttl else cacheTTL rest k

/-- Remove a key (`cache.delete`). -/
def cacheDelete : List Entry → CacheKey → List Entry
  | [], _ => []
  | e :: rest, k => if e.key = k then cacheDelete rest k else e :: cacheDelete rest k

/-- Overwrite a key (`cache.set key val timeout`). -/
def cacheSet (c : List Entry) (k : CacheKey) (v : CacheVal) (ttl : Int) : List Entry :=
  { key := k, val := v, ttl := ttl } :: cacheDelete c k

/-! ## System state -/

/-- The state a service call runs against: the shared cache, the trace of
store calls made so far, the fresh-`jti` supply, the current time, the
store-failure flags, and the external user directory. -/
structure SysState where
  cache : List Entry
  trace : List StoreEvent
  nextJti : Nat
  now : Int
  setFail : Bool
  getFail : Bool
  delFail : Bool
  users : List String

/-- `cache.get`: records the store call; raises (returns `none`) when the
store is down for reads. -/
def cacheGetOp (s : SysState) (k : CacheKey) : Option (Option CacheVal) × SysState :=
  ((if s.getFail then none else some (cacheLookup s.cache k)),
   { s with trace := s.trace ++ [StoreEvent.getEv k] })

/-- `cache.set`: records the store call; `false` means the call raised. -/
def cacheSetOp (s : SysState) (k : CacheKey) (v : CacheVal) (ttl : Int) : Bool × SysState :=
  (!s.setFail,
   { s with trace := s.trace ++ [StoreEvent.setEv k ttl],
            cache := if s.setFail then s.cache else cacheSet s.cache k v ttl })

/-- `cache.delete`: records the store call; `false` means the call raised. -/
def cacheDelOp (s : SysState) (k : CacheKey) : Bool × SysState :=
  (!s.delFail,
   { s with trace := s.trace ++ [StoreEvent.delEv k],
            cache := if s.delFail then s.cache else cacheDelete s.cache k })

/-! ## `api/services/redis_service.py` -/

namespace RedisService

open SimpleDjangoAPI

/-- `store_token(user_id, token_data, expires_in)`: `cache.set` under
`jwt_token:<user_id>`; an exception becomes `Result.error`. -/
def store_token (s : SysState) (user_id : String) (token_data : TokenData)
    (expires_in : Int) : Result Bool × SysState :=
  let w := cacheSetOp s (CacheKey.tokenKey user_id) (CacheVal.tokenData token_data) expires_in
  ((if w.fst then Result.success true else Result.mkError "Error storing token"), w.snd)

/-- `get_token(user_id)`: `cache.get` under `jwt_token:<user_id>`; a falsy
value gives `"Token not found"`, an exception (including a deserialisation
failure) gives `"Error getting token"`. -/
def get_token (s : SysState) (user_id : String) : Result TokenData × SysState :=
  let g := cacheGetOp s (CacheKey.tokenKey user_id)
  ((match g.fst with
    | none => Result.mkError "Error getting token"
    | some none => Result.mkError "Token not found"
    | some (some (CacheVal.tokenData d)) => Result.success d
    | some (some _) => Result.mkError "Error getting token"), g.snd)

/-- `blacklist_token(token, expires_in=86400)`.  The method decodes its
argument as an `AccessToken` (raising `TokenError` — no store call — when the
string is not a currently valid *access* token), computes
`remaining_time = max(exp - current_time, expires_in)` and writes
`"blacklisted"` under `jwt_blacklist:<token>` with that TTL.  The
`expires_in` default (86400) is supplied explicitly at every call site. -/
def blacklist_token (s : SysState) (token : Token) (expires_in : Int) :
    Result Bool × SysState :=
  if decodeOk s.now TokenType.access token then
    let remaining_time := max (token.exp - s.now) expires_in
    let w := cacheSetOp s (CacheKey.blacklistKey token) CacheVal.blacklisted remaining_time
    ((if w.fst then Result.success true else Result.mkError "Error blacklisting token"), w.snd)
  else
    (Result.mkError "Invalid token", s)

/-- `is_token_blacklisted(token)`: `cache.get(jwt_blacklist:<token>) is not
None`; an exception becomes `Result.error`. -/
def is_token_blacklisted (s : SysState) (token : Token) : Result Bool × SysState :=
  let g := cacheGetOp s (CacheKey.blacklistKey token)
  ((match g.fst with
    | none => Result.mkError "Error checking token blacklist status"
    | some v => Result.success v.isSome), g.snd)

/-- `clear_all_user_data(user_id)`: delete `jwt_token:<user_id>` then
`user_sessions:<user_id>`; an exception at either delete aborts with
`Result.error` (the second delete is not reached when the first raises). -/
def clear_all_user_data (s : SysState) (user_id : String) : Result Bool × SysState :=
  let d1 := cacheDelOp s (CacheKey.tokenKey user_id)
  if d1.fst then
    let d2 := cacheDelOp d1.snd (CacheKey.sessionKey user_id)
    ((if d2.fst then Result.success true else Result.mkError "Error clearing all user data"), d2.snd)
  else
    (Result.mkError "Error clearing all user data", d1.snd)

end RedisService

/-! ## Token generation (`rest_framework_simplejwt`) -/

/-- `ACCESS_TOKEN_LIFETIME` (the project keeps the library default of
5 minutes; no claim depends on the numeric value). -/
def ACCESS_TOKEN_LIFETIME : Int := 300

/-- `REFRESH_TOKEN_LIFETIME` (library default of 1 day; no claim depends on
the numeric value). -/
def REFRESH_TOKEN_LIFETIME : Int := 86400

/-- `refresh.access_token`: a fresh `AccessToken` with the claims of the
refresh token copied over (in particular `user_id`), a *fresh* `jti`, and
`exp = now + ACCESS_TOKEN_LIFETIME`. -/
def mkAccessFrom (s : SysState) (src : Token) : Token × SysState :=
  ({ token_type := TokenType.access, user_id := src.user_id, jti := s.nextJti,
     exp := s.now + ACCESS_TOKEN_LIFETIME, sigOk := true },
   { s with nextJti := s.nextJti + 1 })

/-- `RefreshToken()`: a fresh refresh token with a fresh `jti`, no `user_id`
claim yet, and `exp = now + REFRESH_TOKEN_LIFETIME`. -/
def mkFreshRefresh (s : SysState) : Token × SysState :=
  ({ token_type := TokenType.refresh, user_id := none, jti := s.nextJti,
     exp := s.now + REFRESH_TOKEN_LIFETIME, sigOk := true },
   { s with nextJti := s.nextJti + 1 })

/-! ## `api/services/user_service.py` -/

namespace UserService

open SimpleDjangoAPI

/-- The dict returned by a successful `refresh_token`:
`{"access_token": ..., "refresh_token": ...}`. -/
structure TokenPair where
  access_token : Token
  refresh_token : Token
deriving DecidableEq

/-- `UserService.refresh_token(refresh_token)`, line by line:
1. `is_token_blacklisted(refresh_token)`; when the check succeeded *and*
   reported `True`, return `"Refresh token has been revoked"`.
2. `RefreshToken(refresh_token)` — decode; `TokenError` is caught at the
   bottom and becomes `"Invalid refresh token: ..."`.
3. `payload.get("user_id")` falsy → `"Invalid refresh token"`.
4. `refresh.access_token` — new access token from the old refresh token.
5. `RefreshToken()` with `user_id` set to the extracted claim and `exp`
   overwritten with the *old* token's `exp` ("Keep the same expiration").
6. `blacklist_token(refresh_token, expires_in=604800)`; a failure is only
   logged (`logger.warning`) and otherwise ignored.
7. `store_token(user_id, token_data, expires_in=3600)`; failure →
   `"Failed to store tokens"`; otherwise return the new pair. -/
def refresh_token (s : SysState) (tok : Token) : Result TokenPair × SysState :=
  let bc := RedisService.is_token_blacklisted s tok
  if bc.fst.is_success && (bc.fst.data == some true) then
    (Result.mkError "Refresh token has been revoked", bc.snd)
  else if !(decodeOk bc.snd.now TokenType.refresh tok) then
    (Result.mkError "Invalid refresh token: Token is invalid or expired", bc.snd)
  else if pyFalsy tok.user_id then
    (Result.mkError "Invalid refresh token", bc.snd)
  else
    let uid := tok.user_id.getD ""
    let a1 := mkAccessFrom bc.snd tok
    let r1 := mkFreshRefresh a1.snd
    let new_refresh : Token := { r1.fst with user_id := some uid, exp := tok.exp }
    let b1 := RedisService.blacklist_token r1.snd tok 604800
    let td : TokenData :=
      { access_token := some a1.fst, refresh_token := some new_refresh, user_id := uid }
    let st := RedisService.store_token b1.snd uid td 3600
    if st.fst.is_success then
      (Result.success { access_token := a1.fst, refresh_token := new_refresh }, st.snd)
    else
      (Result.mkError "Failed to store tokens", st.snd)

/-- `UserService.logout(user_id, access_token)`, line by line:
1. `blacklist_token(access_token)` (default `expires_in=86400`); a failure is
   only logged.
2. `get_token(user_id)`; on success, read `token_data.get('refresh_token')`;
   when truthy, `blacklist_token(refresh_token)` (default TTL), with both the
   success and the failure case merely logged.
3. `clear_all_user_data(user_id)`; a failure is only logged.
4. Return `Result.success(True)` (the `except` branch is unreachable here
   because every internal call already returns a `Result`). -/
def logout (s : SysState) (user_id : String) (access_token : Token) :
    Result Bool × SysState :=
  let b1 := RedisService.blacklist_token s access_token 86400
  let g := RedisService.get_token b1.snd user_id
  let s3 :=
    if g.fst.is_success then
      match g.fst.data with
      | some td =>
        match td.refresh_token with
        | some rt => (RedisService.blacklist_token g.snd rt 86400).snd
        | none => g.snd
      | none => g.snd
    else g.snd
  let c := RedisService.clear_all_user_data s3 user_id
  (Result.success true, c.snd)

end UserService

/-! ## Helper lemmas about the cache -/

theorem cacheLookup_set_self (c : List Entry) (k : CacheKey) (v : CacheVal) (t : Int) :
    cacheLookup (cacheSet c k v t) k = some v := by
  simp [cacheSet, cacheLookup]

theorem cacheTTL_set_self (c : List Entry) (k : CacheKey) (v : CacheVal) (t : Int) :
    cacheTTL (cacheSet c k v t) k = some t := by
  simp [cacheSet, cacheTTL]

theorem cacheLookup_delete_ne (c : List Entry) {k k2 : CacheKey} (h : k2 ≠ k) :
    cacheLookup (cacheDelete c k) k2 = cacheLookup c k2 := by
  induction c with
  | nil => rfl
  | cons e rest ih =>
    by_cases he : e.key = k
    · have he2 : e.key ≠ k2 := fun hh => h (hh.symm.trans he)
      simp [cacheDelete, cacheLookup, he, he2, ih, h, Ne.symm h]
    · by_cases he2 : e.key = k2
      · simp [cacheDelete, cacheLookup, he, he2, h, Ne.symm h]
      · simp [cacheDelete, cacheLookup, he, he2, ih, h, Ne.symm h]

theorem cacheLookup_set_ne (c : List Entry) {k k2 : CacheKey} (v : CacheVal) (t : Int)
    (h : k2 ≠ k) : cacheLookup (cacheSet c k v t) k2 = cacheLookup c k2 := by
  simp [cacheSet, cacheLookup, Ne.symm h, cacheLookup_delete_ne c h]

theorem decodeOk_iff {now : Int} {kind : TokenType} {t : Token} :
    decodeOk now kind t = true ↔ (t.sigOk = true ∧ now < t.exp ∧ t.token_type = kind) := by
  simp [decodeOk, Bool.and_eq_true, and_assoc]

theorem decodeOk_access_of_refresh {now : Int} {t : Token}
    (h : t.token_type = TokenType.refresh) :
    decodeOk now TokenType.access t = false := by
  simp [decodeOk, h]

theorem pyFalsy_getD {o : Option String} (h : pyFalsy o = false) :
    some (o.getD "") = o := by
  cases o with
  | none => simp [pyFalsy] at h
  | some u => rfl

/-- Shape of a successful `blacklist_token` call. -/
theorem blacklist_token_ok {s : SysState} {t : Token} (e : Int)
    (hdec : decodeOk s.now TokenType.access t = true) (hset : s.setFail = false) :
    RedisService.blacklist_token s t e =
      (Result.success true,
       { s with
          trace := s.trace ++ [StoreEvent.setEv (CacheKey.blacklistKey t) (max (t.exp - s.now) e)],
          cache := cacheSet s.cache (CacheKey.blacklistKey t) CacheVal.blacklisted
                     (max (t.exp - s.now) e) }) := by
  simp [RedisService.blacklist_token, cacheSetOp, hdec, hset]

/-- `blacklist_token` on a refresh-token string always raises `TokenError`
inside `AccessToken(token)` (wrong `token_type`) and returns an error without
touching the store. -/
theorem blacklist_token_badtype {s : SysState} {t : Token} {e : Int}
    (h : t.token_type = TokenType.refresh) :
    RedisService.blacklist_token s t e = (Result.mkError "Invalid token", s) := by
  simp [RedisService.blacklist_token, decodeOk_access_of_refresh h]

/-- `get_token` never writes the cache. -/
theorem get_token_snd (s : SysState) (u : String) :
    (RedisService.get_token s u).snd =
      { s with trace := s.trace ++ [StoreEvent.getEv (CacheKey.tokenKey u)] } := rfl

/-- Shape of a `get_token` call that finds stored token data. -/
theorem get_token_found {s : SysState} {u : String} {td : TokenData}
    (hget : s.getFail = false)
    (h : cacheLookup s.cache (CacheKey.tokenKey u) = some (CacheVal.tokenData td)) :
    (RedisService.get_token s u).fst = Result.success td := by
  simp [RedisService.get_token, cacheGetOp, hget, h]

/-- Shape of a clean (not blacklisted) `is_token_blacklisted` call. -/
theorem is_token_blacklisted_clean {s : SysState} {t : Token}
    (hget : s.getFail = false)
    (h : cacheLookup s.cache (CacheKey.blacklistKey t) = none) :
    RedisService.is_token_blacklisted s t =
      (Result.success false,
       { s with trace := s.trace ++ [StoreEvent.getEv (CacheKey.blacklistKey t)] }) := by
  simp [RedisService.is_token_blacklisted, cacheGetOp, hget, h]

/-- A `blacklist_token` call never makes an existing cache key disappear. -/
theorem blacklist_preserves_isSome {s : SysState} (t : Token) (e : Int) (k : CacheKey)
    (h : (cacheLookup s.cache k).isSome = true) :
    (cacheLookup (RedisService.blacklist_token s t e).snd.cache k).isSome = true := by
  unfold RedisService.blacklist_token cacheSetOp
  by_cases hd : decodeOk s.now TokenType.access t = true
  · by_cases hs : s.setFail = true
    · simp [hd, hs, h]
    · simp only [Bool.not_eq_true] at hs
      by_cases hk : k = CacheKey.blacklistKey t
      · subst hk; simp [hd, hs, cacheLookup_set_self]
      · simp [hd, hs, cacheLookup_set_ne _ _ _ hk, h]
  · simp [hd, h]

/-- `clear_all_user_data` only deletes the token and session keys of `uid`. -/
theorem clear_all_lookup_ne {s : SysState} {uid : String} {k : CacheKey}
    (h1 : k ≠ CacheKey.tokenKey uid) (h2 : k ≠ CacheKey.sessionKey uid) :
    cacheLookup (RedisService.clear_all_user_data s uid).snd.cache k
      = cacheLookup s.cache k := by
  unfold RedisService.clear_all_user_data cacheDelOp
  by_cases hd : s.delFail = true
  · simp [hd]
  · simp only [Bool.not_eq_true] at hd
    simp [hd, cacheLookup_delete_ne _ h1, cacheLookup_delete_ne _ h2]

/-- `blacklist_token` never changes the write-failure flag of the state. -/
theorem blacklist_token_snd_setFail {s : SysState} {t : Token} {e : Int} :
    (RedisService.blacklist_token s t e).snd.setFail = s.setFail := by
  unfold RedisService.blacklist_token cacheSetOp
  split <;> rfl

/-! ## Concrete fixtures used by the evaluation theorems -/

/-- A signature-valid refresh token for subject `u1`, expiring at time 1000. -/
def sampleRefresh : Token :=
  { token_type := TokenType.refresh, user_id := some "u1", jti := 0, exp := 1000, sigOk := true }

/-- A healthy state at time 0: empty cache and trace, next fresh jti 1, no
store failures, user directory containing `u1`. -/
def st0 : SysState :=
  { cache := [], trace := [], nextJti := 1, now := 0,
    setFail := false, getFail := false, delFail := false, users := ["u1"] }

/-- A signature-valid access token for subject `u1` whose remaining lifetime
at time 0 is 100 seconds. -/
def shortAccess : Token :=
  { token_type := TokenType.access, user_id := some "u1", jti := 3, exp := 100, sigOk := true }

/-- A signature-valid refresh token for subject `u1` that expired 100 seconds
before time 0. -/
def expiredRefresh : Token :=
  { token_type := TokenType.refresh, user_id := some "u1", jti := 4, exp := -100, sigOk := true }

/-! ## Claims -/

/-- C9: `Result` invariant — for every value produced by the constructors,
`is_success` equals `error is None`; `Result.success(d)` carries `data = d`,
`error = None`, `is_success = True`; `Result.error(e)` carries `error = e`,
`is_success = False`; and `__bool__` returns `is_success`. -/
theorem C9_result_invariant :
    (∀ (T : Type) (d : Option T) (e : Option String),
        (Result.init d e).is_success = (Result.init d e).error.isNone)
    ∧ (∀ (T : Type) (d : T),
        (Result.success d).data = some d ∧ (Result.success d).error = none
          ∧ (Result.success d).is_success = true)
    ∧ (∀ (T : Type) (e : String),
        (Result.mkError e : Result T).data = none ∧ (Result.mkError e : Result T).error = some e
          ∧ (Result.mkError e : Result T).is_success = false)
    ∧ (∀ (T : Type) (r : Result T), r.toBool = r.is_success) := by
  refine ⟨?_, ?_, ?_, ?_⟩ <;> intros <;>
    simp [Result.init, Result.success, Result.mkError, Result.toBool]

/-- C10: logout is best-effort — for every state (including states where the
store is down for reads, writes and deletes, where the access token is
invalid, and where no refresh token is stored), every `user_id` and every
access token, `logout` returns `Result.success(True)`; every internal failure
is only logged.  (The embedding has no exception path out of `logout`
because every internal call already returns a `Result`.) -/
theorem C10_logout_best_effort :
    ∀ (s : SysState) (user_id : String) (access_token : Token),
      (UserService.logout s user_id access_token).fst = Result.success true :=
  fun _ _ _ => rfl

/-- C1 (evaluation of the code at the failing input): starting from the clean
state `st0`, `refresh_token(sampleRefresh)` succeeds, yet it leaves *no*
blacklist entry for the consumed token (the write inside
`blacklist_token` raises `TokenError` because the refresh token does not
decode as an `AccessToken`, and the failure is only logged), and a second
`refresh_token(sampleRefresh)` with the very same token succeeds again
instead of being rejected as revoked. -/
theorem C1_second_refresh_succeeds :
    (UserService.refresh_token st0 sampleRefresh).fst.is_success = true
    ∧ cacheLookup (UserService.refresh_token st0 sampleRefresh).snd.cache
        (CacheKey.blacklistKey sampleRefresh) = none
    ∧ (UserService.refresh_token (UserService.refresh_token st0 sampleRefresh).snd
        sampleRefresh).fst.is_success = true := by
  decide

/-- C4 counterexample: at time 0, blacklisting `shortAccess` — remaining
lifetime 100 s — writes an entry whose TTL is 86400 (the `expires_in`
argument), not the remaining lifetime clamped at zero (which is 100). -/
theorem C4_counterexample :
    cacheTTL (RedisService.blacklist_token st0 shortAccess 86400).snd.cache
        (CacheKey.blacklistKey shortAccess) = some 86400
    ∧ max (shortAccess.exp - st0.now) (0 : Int) = 100
    ∧ (86400 : Int) ≠ 100 := by
  decide

/-- C4 amended: when the token decodes as a valid access token and the store
write works, the blacklist entry's TTL is `max(exp - now, expires_in)` — the
remaining lifetime floored at the caller's `expires_in` argument (86400 at
the default call sites, 604800 for the old refresh token during refresh) —
not the remaining lifetime clamped at zero.  Tokens already past their
natural expiry are rejected by the `AccessToken` decode, so no entry at all
is written for them; since every call site passes a positive `expires_in`,
no entry ever carries a negative TTL. -/
theorem C4_blacklist_ttl_is_floored (s : SysState) (t : Token) (e : Int)
    (hdec : decodeOk s.now TokenType.access t = true)
    (hset : s.setFail = false) :
    cacheTTL (RedisService.blacklist_token s t e).snd.cache (CacheKey.blacklistKey t)
      = some (max (t.exp - s.now) e) := by
  rw [blacklist_token_ok e hdec hset]
  simp [cacheTTL_set_self]

/-- Witness for `C4_blacklist_ttl_is_floored` at `st0` / `shortAccess`. -/
theorem C4_blacklist_ttl_is_floored_witness :
    decodeOk st0.now TokenType.access shortAccess = true
    ∧ st0.setFail = false
    ∧ cacheTTL (RedisService.blacklist_token st0 shortAccess 86400).snd.cache
        (CacheKey.blacklistKey shortAccess) = some (max (shortAccess.exp - st0.now) 86400) :=
  ⟨by decide, by decide, C4_blacklist_ttl_is_floored st0 shortAccess 86400 (by decide) (by decide)⟩

/-- C5 counterexample: refreshing with the expired token `expiredRefresh`
does return the decode error, but the trace of the call (started with an
empty trace) contains a store read — the blacklist lookup is performed
*before* decoding, so a store call is made for an expired token. -/
theorem C5_counterexample :
    (UserService.refresh_token st0 expiredRefresh).fst
        = Result.mkError "Invalid refresh token: Token is invalid or expired"
    ∧ (UserService.refresh_token st0 expiredRefresh).snd.trace
        = [StoreEvent.getEv (CacheKey.blacklistKey expiredRefresh)] := by
  decide

/-- C5 amended: for a signature-checkable refresh token whose expiry has
passed (and which has no blacklist entry, with the store readable), refresh
fails with the decode error `"Invalid refresh token: Token is invalid or
expired"`, but only after the blacklist lookup: exactly one store call — the
blacklist read — is made before the decode rejects the token. -/
theorem C5_expired_refresh_after_blacklist_read (s : SysState) (t : Token)
    (hexp : t.exp ≤ s.now) (hget : s.getFail = false)
    (hnb : cacheLookup s.cache (CacheKey.blacklistKey t) = none) :
    (UserService.refresh_token s t).fst
      = Result.mkError "Invalid refresh token: Token is invalid or expired"
    ∧ (UserService.refresh_token s t).snd.trace
      = s.trace ++ [StoreEvent.getEv (CacheKey.blacklistKey t)] := by
  have hlt : ¬ (s.now < t.exp) := not_lt.mpr hexp
  unfold UserService.refresh_token
  rw [is_token_blacklisted_clean hget hnb]
  simp [Result.success, Result.init, Result.mkError, decodeOk, hlt]

/-- Witness for `C5_expired_refresh_after_blacklist_read` at `st0` /
`expiredRefresh`. -/
theorem C5_expired_refresh_after_blacklist_read_witness :
    expiredRefresh.exp ≤ st0.now
    ∧ ((UserService.refresh_token st0 expiredRefresh).fst
        = Result.mkError "Invalid refresh token: Token is invalid or expired"
      ∧ (UserService.refresh_token st0 expiredRefresh).snd.trace
        = st0.trace ++ [StoreEvent.getEv (CacheKey.blacklistKey expiredRefresh)]) :=
  ⟨by decide,
   C5_expired_refresh_after_blacklist_read st0 expiredRefresh (by decide) (by decide) (by decide)⟩

/-- C2 counterexample: refreshing `sampleRefresh` from the clean state `st0`
makes the blacklist write for the old token fail (the write call returns an
error result: `blacklist_token` cannot decode a refresh token as an
`AccessToken`), as the trace confirms — the only store write is the one
saving the *new* tokens — and yet `refresh_token` returns a successful
result carrying a new token pair. -/
theorem C2_counterexample :
    (RedisService.blacklist_token st0 sampleRefresh 604800).fst.is_success = false
    ∧ (UserService.refresh_token st0 sampleRefresh).snd.trace
        = [StoreEvent.getEv (CacheKey.blacklistKey sampleRefresh),
           StoreEvent.setEv (CacheKey.tokenKey "u1") 3600]
    ∧ (UserService.refresh_token st0 sampleRefresh).fst.is_success = true
    ∧ ((UserService.refresh_token st0 sampleRefresh).fst.data).isSome = true := by
  decide

/-- C2 amended: when the blacklist write for the old refresh token fails,
`refresh_token` only logs a warning and proceeds: for every state in which
the token reaches the rotation step (readable store, no blacklist entry,
valid refresh token, truthy `user_id`) and the final store write works, the
old-token blacklist write fails (it always does for refresh tokens, at any
state and TTL) and the call nevertheless returns a new token pair. -/
theorem C2_refresh_succeeds_despite_blacklist_failure (s : SysState) (t : Token)
    (hget : s.getFail = false)
    (hnb : cacheLookup s.cache (CacheKey.blacklistKey t) = none)
    (hdec : decodeOk s.now TokenType.refresh t = true)
    (huid : pyFalsy t.user_id = false)
    (hset : s.setFail = false) :
    (∀ (s2 : SysState) (e : Int), (RedisService.blacklist_token s2 t e).fst.is_success = false)
    ∧ (UserService.refresh_token s t).fst.is_success = true := by
  have htype : t.token_type = TokenType.refresh := (decodeOk_iff.mp hdec).2.2
  constructor
  · intro s2 e
    rw [blacklist_token_badtype htype]
    simp [Result.mkError, Result.init]
  · unfold UserService.refresh_token
    rw [is_token_blacklisted_clean hget hnb]
    simp [Result.success, Result.init, hdec, huid, RedisService.store_token, cacheSetOp,
          blacklist_token_snd_setFail, mkAccessFrom, mkFreshRefresh, hset]

/-- Witness for `C2_refresh_succeeds_despite_blacklist_failure` at `st0` /
`sampleRefresh`. -/
theorem C2_refresh_succeeds_despite_blacklist_failure_witness :
    decodeOk st0.now TokenType.refresh sampleRefresh = true
    ∧ (RedisService.blacklist_token st0 sampleRefresh 604800).fst.is_success = false
    ∧ (UserService.refresh_token st0 sampleRefresh).fst.is_success = true :=
  ⟨by decide,
   (C2_refresh_succeeds_despite_blacklist_failure st0 sampleRefresh
      (by decide) (by decide) (by decide) (by decide) (by decide)).1 st0 604800,
   (C2_refresh_succeeds_despite_blacklist_failure st0 sampleRefresh
      (by decide) (by decide) (by decide) (by decide) (by decide)).2⟩

/-- A signature-valid refresh token whose subject `ghost` is *not* in the
user directory of `st0`. -/
def ghostRefresh : Token :=
  { token_type := TokenType.refresh, user_id := some "ghost", jti := 7, exp := 1000, sigOk := true }

/-- C7 counterexample: `ghostRefresh` carries a subject that does not resolve
in the user directory of `st0` (which only contains `u1`), yet
`refresh_token` succeeds and issues new tokens — no `UserNotFound` error. -/
theorem C7_counterexample :
    st0.users.contains "ghost" = false
    ∧ (UserService.refresh_token st0 ghostRefresh).fst.is_success = true := by
  decide

/-- C7 amended: `refresh_token` never consults the user directory — its
result is unchanged under any replacement of the directory contents — and it
never produces a `UserNotFound` error: every call either succeeds or returns
one of the four errors revoked / invalid-or-expired / invalid (falsy
`user_id` claim) / failed-to-store. -/
theorem C7_refresh_ignores_directory :
    (∀ (s : SysState) (t : Token) (u : List String),
        (UserService.refresh_token { s with users := u } t).fst
          = (UserService.refresh_token s t).fst)
    ∧ (∀ (s : SysState) (t : Token),
        (UserService.refresh_token s t).fst.is_success = true
        ∨ (UserService.refresh_token s t).fst.error = some "Refresh token has been revoked"
        ∨ (UserService.refresh_token s t).fst.error
            = some "Invalid refresh token: Token is invalid or expired"
        ∨ (UserService.refresh_token s t).fst.error = some "Invalid refresh token"
        ∨ (UserService.refresh_token s t).fst.error = some "Failed to store tokens") := by
  constructor
  · intro s t u
    by_cases h1 : s.getFail = true <;>
    by_cases h2 : (cacheLookup s.cache (CacheKey.blacklistKey t)).isSome = true <;>
    by_cases h3 : decodeOk s.now TokenType.refresh t = true <;>
    by_cases h4 : pyFalsy t.user_id = true <;>
    by_cases h5 : s.setFail = true <;>
    simp [UserService.refresh_token, RedisService.is_token_blacklisted, cacheGetOp,
          RedisService.store_token, cacheSetOp, blacklist_token_snd_setFail,
          mkAccessFrom, mkFreshRefresh, Result.success, Result.mkError, Result.init,
          h1, h2, h3, h4, h5]
  · intro s t
    by_cases h1 : s.getFail = true <;>
    by_cases h2 : (cacheLookup s.cache (CacheKey.blacklistKey t)).isSome = true <;>
    by_cases h3 : decodeOk s.now TokenType.refresh t = true <;>
    by_cases h4 : pyFalsy t.user_id = true <;>
    by_cases h5 : s.setFail = true <;>
    simp [UserService.refresh_token, RedisService.is_token_blacklisted, cacheGetOp,
          RedisService.store_token, cacheSetOp, blacklist_token_snd_setFail,
          mkAccessFrom, mkFreshRefresh, Result.success, Result.mkError, Result.init,
          h1, h2, h3, h4, h5]

/-- C6 counterexample: the refresh token returned by a successful
`refresh_token(sampleRefresh)` carries the *old* token's expiry (1000), not a
new sliding window (`now + REFRESH_TOKEN_LIFETIME` = 86400): the code copies
`refresh.payload.get('exp')` into the new token ("Keep the same
expiration"). -/
theorem C6_counterexample :
    ((UserService.refresh_token st0 sampleRefresh).fst.data.map
        (fun p => p.refresh_token.exp)) = some sampleRefresh.exp
    ∧ sampleRefresh.exp ≠ st0.now + REFRESH_TOKEN_LIFETIME := by
  decide

/-- C6 amended: every successful `refresh_token` returns a refresh token that
is freshly generated — refresh-typed, same subject as the old token, and
(provided the old token's jti is older than the fresh-jti supply, as for
every previously issued token) a jti distinct from the old one — but its
expiry is *copied from the old token*: the original expiry window is
preserved, not slid. -/
theorem C6_rotation_keeps_old_expiry (s : SysState) (t : Token) (p : UserService.TokenPair)
    (hjti : t.jti < s.nextJti)
    (hp : (UserService.refresh_token s t).fst.data = some p) :
    p.refresh_token.token_type = TokenType.refresh
    ∧ p.refresh_token.user_id = t.user_id
    ∧ p.refresh_token.jti ≠ t.jti
    ∧ p.refresh_token.exp = t.exp := by
  unfold UserService.refresh_token at hp
  by_cases h1 : s.getFail = true <;>
  by_cases h2 : (cacheLookup s.cache (CacheKey.blacklistKey t)).isSome = true <;>
  by_cases h3 : decodeOk s.now TokenType.refresh t = true <;>
  by_cases h4 : pyFalsy t.user_id = true <;>
  by_cases h5 : s.setFail = true <;>
  simp [RedisService.is_token_blacklisted, cacheGetOp, RedisService.store_token,
        cacheSetOp, blacklist_token_snd_setFail, mkAccessFrom, mkFreshRefresh,
        Result.success, Result.mkError, Result.init, h1, h2, h3, h4, h5] at hp
  all_goals (
    subst hp
    refine ⟨rfl, pyFalsy_getD (by simpa using h4), ?_, rfl⟩
    show s.nextJti + 1 ≠ t.jti
    omega)

/-- The exact pair returned by `refresh_token st0 sampleRefresh`: the new
access token consumes jti 1, the new refresh token consumes jti 2 and keeps
the old expiry 1000. -/
def rotatedPair : UserService.TokenPair :=
  { access_token :=
      { token_type := TokenType.access, user_id := some "u1", jti := 1, exp := 300, sigOk := true },
    refresh_token :=
      { token_type := TokenType.refresh, user_id := some "u1", jti := 2, exp := 1000, sigOk := true } }

/-- Witness for `C6_rotation_keeps_old_expiry` at `st0` / `sampleRefresh`. -/
theorem C6_rotation_keeps_old_expiry_witness :
    sampleRefresh.jti < st0.nextJti
    ∧ (UserService.refresh_token st0 sampleRefresh).fst.data = some rotatedPair
    ∧ (rotatedPair.refresh_token.token_type = TokenType.refresh
       ∧ rotatedPair.refresh_token.user_id = sampleRefresh.user_id
       ∧ rotatedPair.refresh_token.jti ≠ sampleRefresh.jti
       ∧ rotatedPair.refresh_token.exp = sampleRefresh.exp) :=
  ⟨by decide, by decide,
   C6_rotation_keeps_old_expiry st0 sampleRefresh rotatedPair (by decide) (by decide)⟩

/-- A signature-valid refresh token for subject `bob`, expiring at 2000. -/
def bobRefresh : Token :=
  { token_type := TokenType.refresh, user_id := some "bob", jti := 8, exp := 2000, sigOk := true }

/-- A signature-valid access token for subject `alice`, expiring at 500. -/
def aliceAccess : Token :=
  { token_type := TokenType.access, user_id := some "alice", jti := 9, exp := 500, sigOk := true }

/-- The token data stored for `bob` (as `login`/`refresh` would store it). -/
def bobData : TokenData :=
  { access_token := none, refresh_token := some bobRefresh, user_id := "bob" }

/-- A healthy state at time 0 whose store holds `bob`'s token data. -/
def stBob : SysState :=
  { cache := [{ key := CacheKey.tokenKey "bob", val := CacheVal.tokenData bobData, ttl := 3600 }],
    trace := [], nextJti := 20, now := 0,
    setFail := false, getFail := false, delFail := false, users := ["bob", "alice"] }

/-- C3 counterexample: `aliceAccess` and `bobRefresh` carry different
subjects, yet `logout("bob", aliceAccess)` is *not* rejected — it returns
success and a blacklist entry (for the access token) *is* written to the
store. -/
theorem C3_counterexample :
    aliceAccess.user_id ≠ bobRefresh.user_id
    ∧ (UserService.logout stBob "bob" aliceAccess).fst = Result.success true
    ∧ cacheLookup (UserService.logout stBob "bob" aliceAccess).snd.cache
        (CacheKey.blacklistKey aliceAccess) = some CacheVal.blacklisted := by
  decide

/-- C3 amended: `logout` performs no subject comparison at all (neither the
service nor the view compares the two tokens' subjects, and no
`SubjectMismatch` error exists in the code): for every user id and access
token — in particular when the access token's subject differs from the
targeted user — `logout` returns success, and whenever the access token is a
currently valid access token and the store accepts writes, a blacklist entry
keyed by that access token is written. -/
theorem C3_logout_has_no_subject_check (s : SysState) (uid : String) (a : Token)
    (hmis : a.user_id ≠ some uid)
    (hdec : decodeOk s.now TokenType.access a = true)
    (hset : s.setFail = false) :
    (UserService.logout s uid a).fst = Result.success true
    ∧ (cacheLookup (UserService.logout s uid a).snd.cache (CacheKey.blacklistKey a)).isSome
        = true := by
  have hne1 : CacheKey.blacklistKey a ≠ CacheKey.tokenKey uid := fun hh => by cases hh
  have hne2 : CacheKey.blacklistKey a ≠ CacheKey.sessionKey uid := fun hh => by cases hh
  refine ⟨rfl, ?_⟩
  unfold UserService.logout
  rw [blacklist_token_ok 86400 hdec hset]
  simp only [get_token_snd]
  rw [clear_all_lookup_ne hne1 hne2]
  split
  · split
    · split
      · apply blacklist_preserves_isSome
        simp [cacheLookup_set_self]
      · simp [cacheLookup_set_self]
    · simp [cacheLookup_set_self]
  · simp [cacheLookup_set_self]

/-- Witness for `C3_logout_has_no_subject_check` at `stBob` /
`aliceAccess`. -/
theorem C3_logout_has_no_subject_check_witness :
    aliceAccess.user_id ≠ some "bob"
    ∧ ((UserService.logout stBob "bob" aliceAccess).fst = Result.success true
      ∧ (cacheLookup (UserService.logout stBob "bob" aliceAccess).snd.cache
          (CacheKey.blacklistKey aliceAccess)).isSome = true) :=
  ⟨by decide,
   C3_logout_has_no_subject_check stBob "bob" aliceAccess (by decide) (by decide) (by decide)⟩

/-- C8 counterexample: `logout` creates a blacklist entry keyed by the
*access* token, while the refresh token stored for the user ends up with *no*
blacklist entry (the attempt to blacklist it fails inside `blacklist_token`,
which cannot decode a refresh token as an `AccessToken`). -/
theorem C8_counterexample :
    cacheLookup (UserService.logout stBob "bob" aliceAccess).snd.cache
        (CacheKey.blacklistKey aliceAccess) = some CacheVal.blacklisted
    ∧ cacheLookup (UserService.logout stBob "bob" aliceAccess).snd.cache
        (CacheKey.blacklistKey bobRefresh) = none := by
  decide

/-- C8 amended: `logout` attempts to blacklist *both* tokens — first the
presented access token, then the refresh token found in the user's stored
token data — but only the access-token write can succeed: for every state in
which the access token is valid, the store works, and the stored data holds
a refresh-typed refresh token with no pre-existing entry, the final store
contains a blacklist entry keyed by the access token and still no entry
keyed by the refresh token. -/
theorem C8_logout_blacklists_access_not_refresh (s : SysState) (uid : String)
    (a rt : Token) (td : TokenData)
    (hdec : decodeOk s.now TokenType.access a = true)
    (hset : s.setFail = false) (hget : s.getFail = false)
    (hstored : cacheLookup s.cache (CacheKey.tokenKey uid) = some (CacheVal.tokenData td))
    (hrt : td.refresh_token = some rt)
    (hrtype : rt.token_type = TokenType.refresh)
    (hnb : cacheLookup s.cache (CacheKey.blacklistKey rt) = none) :
    cacheLookup (UserService.logout s uid a).snd.cache (CacheKey.blacklistKey a)
        = some CacheVal.blacklisted
    ∧ cacheLookup (UserService.logout s uid a).snd.cache (CacheKey.blacklistKey rt)
        = none := by
  have hAtype : a.token_type = TokenType.access := (decodeOk_iff.mp hdec).2.2
  have hne : rt ≠ a := by
    intro hh
    rw [hh, hAtype] at hrtype
    cases hrtype
  have hneA1 : CacheKey.blacklistKey a ≠ CacheKey.tokenKey uid := fun hh => by cases hh
  have hneA2 : CacheKey.blacklistKey a ≠ CacheKey.sessionKey uid := fun hh => by cases hh
  have hneR1 : CacheKey.blacklistKey rt ≠ CacheKey.tokenKey uid := fun hh => by cases hh
  have hneR2 : CacheKey.blacklistKey rt ≠ CacheKey.sessionKey uid := fun hh => by cases hh
  have hneRA : CacheKey.blacklistKey rt ≠ CacheKey.blacklistKey a := by
    simp [hne]
  have hline : cacheLookup
      (cacheSet s.cache (CacheKey.blacklistKey a) CacheVal.blacklisted (max (a.exp - s.now) 86400))
      (CacheKey.tokenKey uid) = some (CacheVal.tokenData td) := by
    rw [cacheLookup_set_ne _ _ _ hneA1.symm]
    exact hstored
  unfold UserService.logout
  rw [blacklist_token_ok 86400 hdec hset]
  simp only [RedisService.get_token, cacheGetOp, hget, hline, hrt, Result.success, Result.init,
             Option.isNone_none, Bool.false_eq_true, if_false, ite_false, if_true, ite_true,
             Bool.and_self]
  rw [blacklist_token_badtype hrtype]
  constructor
  · rw [clear_all_lookup_ne hneA1 hneA2]
    simp [cacheLookup_set_self]
  · rw [clear_all_lookup_ne hneR1 hneR2]
    simp [cacheLookup_set_ne _ _ _ hneRA, hnb]

/-- Witness for `C8_logout_blacklists_access_not_refresh` at `stBob`. -/
theorem C8_logout_blacklists_access_not_refresh_witness :
    decodeOk stBob.now TokenType.access aliceAccess = true
    ∧ (cacheLookup (UserService.logout stBob "bob" aliceAccess).snd.cache
          (CacheKey.blacklistKey aliceAccess) = some CacheVal.blacklisted
      ∧ cacheLookup (UserService.logout stBob "bob" aliceAccess).snd.cache
          (CacheKey.blacklistKey bobRefresh) = none) :=
  ⟨by decide,
   C8_logout_blacklists_access_not_refresh stBob "bob" aliceAccess bobRefresh bobData
     (by decide) (by decide) (by decide) (by decide) (by decide) (by decide) (by decide)⟩

end SimpleDjangoAPI
